import Mathlib

/-!
Shallow embedding of the keyless-protocol request/response multiplexer
from g3bench (src/g3bench/src/target/keyless/cloudflare/connection.rs).

Wake tokens (std::task::Waker) are modelled as natural-number tokens; the
effect of signalling tokens during an operation is returned as a list of
woken tokens, in signalling order.  Instants are natural-number timestamps
and an elapsed age is truncated subtraction.  The bounded concurrent queue
and the hash table are modelled as lists; the table is an association list
with unique keys.  Fallible poll loops are driven by fuel and return
Option, with none meaning the fuel ran out.
-/

/-- Wake token: stands for std::task::Waker.  waking is recorded by
appending the token to the woken-token list an operation returns. -/
abbrev Waker := Nat

/-- Code of an I/O error (std::io::Error). -/
abbrev IOErr := Nat

/-- Modelled from the spec: the request object is a boundary collaborator
(section 6): it exposes a correlation-id getter/setter and its serialized
byte buffer.  Only those are used by the multiplexer. -/
structure KeylessRequest where
  id : Nat
  buf : List Nat
deriving DecidableEq, Repr

/-- Corresponds to KeylessRequest::set_id. -/
def KeylessRequest.setId (r : KeylessRequest) (i : Nat) : KeylessRequest :=
  { r with id := i }

/-- Modelled from the spec: the response object is a boundary collaborator
(section 6): it exposes a correlation-id getter; its body is opaque. -/
structure KeylessResponse where
  id : Nat
  body : List Nat
deriving DecidableEq, Repr

/-- Modelled from the spec: the error enum lives outside the staged sources.
Section 6 gives two kinds crossing the boundary: a write-failure wrapping an
I/O error (KeylessLocalError::WriteFailed lifted into KeylessResponseError)
and a response-error raised by the reader. -/
inductive KeylessResponseError where
  | writeFailed (e : IOErr)
  | responseFailed (code : Nat)
deriving DecidableEq, Repr

/-- std::task::Poll. -/
inductive Poll (α : Type) where
  | ready (a : α)
  | pending
deriving DecidableEq, Repr

/-- ResponseValue: one pending-response-table entry. -/
structure ResponseValue where
  data : Option KeylessResponse
  waker : Option Waker
  created : Nat
deriving DecidableEq, Repr

/-- concurrent_queue::ConcurrentQueue::bounded: items, fixed capacity and a
closed flag. -/
structure ReqQueue where
  items : List (KeylessRequest × Waker)
  capacity : Nat
  closed : Bool
deriving DecidableEq, Repr

/-- Result of ConcurrentQueue::push: on Full and Closed the pushed value is
handed back to the caller (PushError carries the rejected item). -/
inductive PushResult where
  | ok (q : ReqQueue)
  | closedErr (x : KeylessRequest × Waker)
  | fullErr (x : KeylessRequest × Waker)
deriving DecidableEq, Repr

/-- ConcurrentQueue::push: a closed queue rejects with Closed; a queue at
capacity rejects with Full, returning the rejected pair itself. -/
def ReqQueue.push (q : ReqQueue) (x : KeylessRequest × Waker) : PushResult :=
  if q.closed then PushResult.closedErr x
  else if q.capacity ≤ q.items.length then PushResult.fullErr x
  else PushResult.ok { q with items := q.items ++ [x] }

/-- Result of ConcurrentQueue::pop. -/
inductive PopResult where
  | ok (x : KeylessRequest × Waker) (q : ReqQueue)
  | empty
  | closedErr
deriving DecidableEq, Repr

/-- ConcurrentQueue::pop: items drain in order even after close; Closed is
only reported once the queue is closed and empty. -/
def ReqQueue.pop (q : ReqQueue) : PopResult :=
  match q.items with
  | [] => if q.closed then PopResult.closedErr else PopResult.empty
  | x :: rest => PopResult.ok x { q with items := rest }

/-- ConcurrentQueue::close. -/
def ReqQueue.close (q : ReqQueue) : ReqQueue :=
  { q with closed := true }

/-- Association-list lookup standing for HashMap::get. -/
def tableLookup (t : List (Nat × ResponseValue)) (k : Nat) : Option ResponseValue :=
  match t with
  | [] => none
  | p :: rest => if p.1 = k then some p.2 else tableLookup rest k

/-- HashMap::remove of the key (keeps the rest). -/
def tableErase (t : List (Nat × ResponseValue)) (k : Nat) : List (Nat × ResponseValue) :=
  t.filter (fun p => p.1 != k)

/-- HashMap::insert: binds the key to the value, dropping any old binding. -/
def tableInsert (t : List (Nat × ResponseValue)) (k : Nat) (v : ResponseValue) :
    List (Nat × ResponseValue) :=
  (k, v) :: tableErase t k

/-- HashMap::remove returning the removed value. -/
def tableRemove (t : List (Nat × ResponseValue)) (k : Nat) :
    Option ResponseValue × List (Nat × ResponseValue) :=
  (tableLookup t k, tableErase t k)

/-- SharedState from connection.rs: writer wake token slot, correlation-id
counter, bounded request queue, pending-response table and error slot. -/
structure SharedState where
  write_waker : Option Waker
  next_req_id : Nat
  req_queue : ReqQueue
  rsp_table : List (Nat × ResponseValue)
  error : Option KeylessResponseError
deriving DecidableEq, Repr

/-- SharedState::default: empty slots, counter 0, queue bounded at 1024. -/
def sharedDefault : SharedState :=
  { write_waker := none
    next_req_id := 0
    req_queue := { items := [], capacity := 1024, closed := false }
    rsp_table := []
    error := none }

/-- SharedState::set_req_error: stores the I/O error wrapped as a
write-failure, overwriting whatever the slot held. -/
def setReqError (s : SharedState) (e : IOErr) : SharedState :=
  { s with error := some (KeylessResponseError.writeFailed e) }

/-- SharedState::set_rsp_error: stores the response error, overwriting
whatever the slot held. -/
def setRspError (s : SharedState) (er : KeylessResponseError) : SharedState :=
  { s with error := some er }

/-- SharedState::clean_pending_req: pop every queued pair waking its token,
then drain the response table waking every present token. -/
def cleanPendingReq (s : SharedState) : SharedState × List Waker :=
  ({ s with req_queue := { s.req_queue with items := [] }, rsp_table := [] },
   s.req_queue.items.map (fun p => p.2) ++ s.rsp_table.filterMap (fun p => p.2.waker))

/-- SharedState::take_write_waker. -/
def takeWriteWaker (s : SharedState) : Option Waker × SharedState :=
  (s.write_waker, { s with write_waker := none })

/-- SharedState::next_req_id: fetch_add on an AtomicU32, so the returned id
and the stored successor both wrap at two to the thirty-second power. -/
def nextReqIdStep (n : Nat) : Nat × Nat :=
  (n % 4294967296, (n + 1) % 4294967296)

/-- SendHandle: its shared-state reference is passed explicitly to the
operations; the handle itself keeps the clone of the writer wake token. -/
structure SendHandle where
  writer_waker : Waker
deriving DecidableEq, Repr

/-- Drop for SendHandle: close the queue, then take the writer wake token
and signal it when one was published. -/
def dropSendHandle (s : SharedState) : SharedState × List Waker :=
  match (takeWriteWaker { s with req_queue := s.req_queue.close }) with
  | (some w, s1) => (s1, [w])
  | (none, s1) => (s1, [])

/-- SendHandle::is_closed. -/
def isClosed (s : SharedState) : Bool :=
  s.req_queue.closed

/-- SendHandle::fetch_error: a clone of the error slot. -/
def fetchError (s : SharedState) : Option KeylessResponseError :=
  s.error

/-- SendRequest: the single-use submission future.  request is Some until
the push into the queue succeeds or the queue reports closed. -/
structure SendRequest where
  writer_waker : Waker
  request : Option KeylessRequest
  rsp_id : Nat
deriving DecidableEq, Repr

/-- SendHandle::send_request. -/
def sendRequestNew (h : SendHandle) (req : KeylessRequest) : SendRequest :=
  { writer_waker := h.writer_waker, request := some req, rsp_id := 0 }

/-- SendRequest::poll.  cx is the polling task wake token.  Returns the
poll result, the updated future, the updated shared state and the tokens
woken, in order. -/
def sendRequestPoll (cx : Waker) (sr : SendRequest) (s : SharedState) :
    Poll (Option KeylessResponse) × SendRequest × SharedState × List Waker :=
  match sr.request with
  | some req =>
    match nextReqIdStep s.next_req_id with
    | (id, nid) =>
      match ReqQueue.push s.req_queue (req.setId id, cx) with
      | PushResult.ok q1 =>
        (Poll.pending, { sr with request := none, rsp_id := id },
         { s with next_req_id := nid, req_queue := q1 }, [sr.writer_waker])
      | PushResult.closedErr _ =>
        (Poll.ready none, { sr with request := none },
         { s with next_req_id := nid }, [])
      | PushResult.fullErr x =>
        (Poll.pending, { sr with request := some x.1 },
         { s with next_req_id := nid }, [x.2])
  | none =>
    match tableRemove s.rsp_table sr.rsp_id with
    | (entry, t1) =>
      (Poll.ready (entry.bind (fun v => v.data)), sr, { s with rsp_table := t1 }, [])

/-- WaitWriteWaker::poll: ready with a handle once the writer published its
wake token; otherwise self-wake and stay pending. -/
def waitWriteWakerPoll (cx : Waker) (s : SharedState) : Poll SendHandle × List Waker :=
  match s.write_waker with
  | some w => (Poll.ready { writer_waker := w }, [])
  | none => (Poll.pending, [cx])

/-- UnderlyingWriterState: first-poll flag, write offset into the current
buffer, the request being written with its caller token, the configured
request timeout, and the armed shutdown-timer deadline if any. -/
structure WState where
  init : Bool
  current_offset : Nat
  current_request : Option (KeylessRequest × Waker)
  request_timeout : Nat
  shutdown_wait : Option Nat
deriving DecidableEq, Repr

/-- Result of one poll_write call on the underlying stream. -/
inductive WRes where
  | ok (n : Nat)
  | err (e : IOErr)
deriving DecidableEq, Repr

/-- Result of one poll_flush call on the underlying stream. -/
inductive FRes where
  | ok
  | err (e : IOErr)
deriving DecidableEq, Repr

/-- Deterministic model of the underlying AsyncWrite half: scripted results
for successive poll_write and poll_flush calls, plus a flag recording that
poll_shutdown was invoked.  An exhausted script answers pending. -/
structure WScript where
  writes : List (Poll WRes)
  flushes : List (Poll FRes)
  shutdownCalled : Bool
deriving DecidableEq, Repr

/-- Next scripted poll_write result. -/
def WScript.nextWrite (sc : WScript) : Poll WRes × WScript :=
  match sc.writes with
  | [] => (Poll.pending, sc)
  | r :: rs => (r, { sc with writes := rs })

/-- Next scripted poll_flush result. -/
def WScript.nextFlush (sc : WScript) : Poll FRes × WScript :=
  match sc.flushes with
  | [] => (Poll.pending, sc)
  | r :: rs => (r, { sc with flushes := rs })

/-- Records the poll_shutdown call made on an error or shutdown path. -/
def WScript.doShutdown (sc : WScript) : WScript :=
  { sc with shutdownCalled := true }

/-- Outcome of the inner while loop of poll_write that writes the current
buffer from the saved offset: done (buffer fully written), failed (write
returned an I/O error), or pend (write returned pending).  Carries the new
offset and the do_flush flag. -/
inductive WOut where
  | done (off : Nat) (didWrite : Bool)
  | failed (e : IOErr)
  | pend (off : Nat) (didWrite : Bool)
deriving DecidableEq, Repr

/-- The while loop in UnderlyingWriterState::poll_write that writes
current_buffer from current_offset, advancing the offset on partial writes
and setting do_flush on each successful write. -/
def writeLoop : Nat → List Nat → Nat → Bool → WScript → Option (WOut × WScript)
  | 0, _, _, _, _ => none
  | fuel + 1, buf, off, dw, sc =>
    if buf.length ≤ off then some (WOut.done off dw, sc)
    else
      match sc.nextWrite with
      | (Poll.ready (WRes.ok n), sc1) => writeLoop fuel buf (off + n) true sc1
      | (Poll.ready (WRes.err e), sc1) => some (WOut.failed e, sc1)
      | (Poll.pending, sc1) => some (WOut.pend off dw, sc1)

/-- The common failure path of the writer activity: close the request
queue, drain the queue and the pending-response table waking every held
caller token, and publish the error wrapped as a write-failure. -/
def writerFail (s : SharedState) (e : IOErr) : SharedState × List Waker :=
  match cleanPendingReq { s with req_queue := s.req_queue.close } with
  | (s1, wk) => (setReqError s1 e, wk)

/-- The loop of UnderlyingWriterState::poll_write after the init block.
now is the poll time, df the do_flush flag, acc the tokens woken so far.
Returns the poll result, the shared state, the writer state, the stream
script and the woken tokens; none means the fuel ran out. -/
def pollWriteLoop : Nat → Nat → SharedState → WState → WScript → Bool → List Waker →
    Option (Poll Unit × SharedState × WState × WScript × List Waker)
  | 0, _, _, _, _, _, _ => none
  | fuel + 1, now, s, w, sc, df, acc =>
    match w.current_request with
    | some (req, waker) =>
      match writeLoop fuel req.buf w.current_offset df sc with
      | none => none
      | some (WOut.failed e, sc1) =>
        some (Poll.ready (), (writerFail s e).1, { w with current_request := none },
              sc1.doShutdown, acc ++ [waker] ++ (writerFail s e).2)
      | some (WOut.pend off _dw, sc1) =>
        some (Poll.pending, s,
              { w with current_offset := off, current_request := some (req, waker) },
              sc1, acc)
      | some (WOut.done off dw, sc1) =>
        pollWriteLoop fuel now
          { s with rsp_table :=
              tableInsert s.rsp_table req.id { data := none, waker := some waker, created := now } }
          { w with current_offset := off, current_request := none } sc1 dw acc
    | none =>
      match ReqQueue.pop s.req_queue with
      | PopResult.ok x q1 =>
        pollWriteLoop fuel now { s with req_queue := q1 }
          { w with current_offset := 0, current_request := some x } sc df acc
      | PopResult.empty =>
        if df then
          match sc.nextFlush with
          | (Poll.pending, sc1) => some (Poll.pending, s, w, sc1, acc)
          | (Poll.ready FRes.ok, sc1) => some (Poll.pending, s, w, sc1, acc)
          | (Poll.ready (FRes.err e), sc1) =>
            some (Poll.ready (), (writerFail s e).1, w, sc1.doShutdown,
                  acc ++ (writerFail s e).2)
        else some (Poll.pending, s, w, sc, acc)
      | PopResult.closedErr =>
        match { s with write_waker := none }, w.shutdown_wait.getD (now + w.request_timeout) with
        | s1, dl =>
          if dl ≤ now then
            some (Poll.ready (), s1, { w with shutdown_wait := none }, sc.doShutdown, acc)
          else
            some (Poll.pending, s1, { w with shutdown_wait := some dl }, sc, acc)

/-- The init block at the top of poll_write: on the very first poll the
writer publishes its own wake token into the shared state. -/
def initStep (cx : Waker) (s : SharedState) (w : WState) : SharedState × WState :=
  if w.init then ({ s with write_waker := some cx }, { w with init := false })
  else (s, w)

/-- UnderlyingWriterState::poll_write: the init block, then the loop with
do_flush false and no token woken yet. -/
def pollWrite (fuel : Nat) (cx : Waker) (now : Nat) (s : SharedState) (w : WState)
    (sc : WScript) : Option (Poll Unit × SharedState × WState × WScript × List Waker) :=
  pollWriteLoop fuel now (initStep cx s w).1 (initStep cx s w).2 sc false []

/-- Events of one reader step, used to state the store-before-wake order:
storing the payload into the entry, releasing the table lock, signalling a
token. -/
inductive REvent where
  | store (id : Nat)
  | unlock
  | wakeEv (w : Waker)
deriving DecidableEq, Repr

/-- The successful-response arm of the reader task loop: look the id up in
the pending-response table; if the entry is there and still carries its
caller token, take the token, stash the payload, drop the lock, then wake;
otherwise leave everything unchanged. -/
def readerStepOk (s : SharedState) (r : KeylessResponse) : SharedState × List REvent :=
  match tableLookup s.rsp_table r.id with
  | none => (s, [REvent.unlock])
  | some v =>
    match v.waker with
    | some wk =>
      ({ s with rsp_table := tableInsert s.rsp_table r.id { v with data := some r, waker := none } },
       [REvent.store r.id, REvent.unlock, REvent.wakeEv wk])
    | none => (s, [REvent.unlock])

/-- The error arm of the reader task loop: close the queue, publish the
response error, drain queue and table waking every held token, then take
and signal the writer wake token when one is published. -/
def readerStepErr (s : SharedState) (e : KeylessResponseError) : SharedState × List Waker :=
  match cleanPendingReq (setRspError { s with req_queue := s.req_queue.close } e) with
  | (s1, wk) =>
    match takeWriteWaker s1 with
    | (some w, s2) => (s2, wk ++ [w])
    | (none, s2) => (s2, wk)

/-- One janitor tick over the pending-response table: retain entries whose
age is at most the timeout; evict the others, waking the caller token each
evicted entry still carries.  Returns the retained table and the woken
tokens. -/
def janitorTick (now timeout : Nat) (t : List (Nat × ResponseValue)) :
    List (Nat × ResponseValue) × List Waker :=
  (t.filter (fun p => !(decide (timeout < now - p.2.created))),
   (t.filter (fun p => decide (timeout < now - p.2.created))).filterMap (fun p => p.2.waker))

/-- Tick times of the janitor interval: tokio::time::interval fires
immediately once (consumed before the loop) and then every request_timeout;
the k-th in-loop tick is at (k + 1) times the timeout. -/
def janitorTickTime (rt k : Nat) : Nat :=
  rt * (k + 1)

/-- Caller wake tokens held by the session on the writer side: the queued
pairs, the writer current-request slot, and the pending-response entries
that still carry a token. -/
def heldWakers (s : SharedState) (w : WState) : List Waker :=
  s.req_queue.items.map (fun p => p.2) ++ (w.current_request.map (fun p => p.2)).toList ++
    s.rsp_table.filterMap (fun p => p.2.waker)

/-- Correlation ids of requests not yet registered in the table: the
current-request slot then the queue, in order. -/
def pendingIds (s : SharedState) (w : WState) : List Nat :=
  (w.current_request.map (fun p => p.1.id)).toList ++ s.req_queue.items.map (fun p => p.1.id)

/-- Writer-side well-formedness: the not-yet-registered correlation ids are
pairwise distinct and none of them is already a key of the table. -/
def WriterInv (s : SharedState) (w : WState) : Prop :=
  (pendingIds s w).Nodup ∧ ∀ i ∈ pendingIds s w, tableLookup s.rsp_table i = none

/-- Concrete session state for the C1 scenario: one awaiting entry under
id 5 that carries no payload yet. -/
def c1s : SharedState :=
  { write_waker := none, next_req_id := 0,
    req_queue := { items := [], capacity := 1024, closed := false },
    rsp_table := [(5, { data := none, waker := some 3, created := 0 })],
    error := none }

/-- Concrete awaiting-response future for the C1 scenario. -/
def c1sr : SendRequest :=
  { writer_waker := 0, request := none, rsp_id := 5 }

/-- Concrete session state for the C2 scenario: a capacity-one queue full
with another producer pair whose token is 9. -/
def c2s : SharedState :=
  { write_waker := none, next_req_id := 0,
    req_queue := { items := [({ id := 0, buf := [1] }, 9)], capacity := 1, closed := false },
    rsp_table := [], error := none }

/-- Concrete first-poll future for the C2 scenario; its own task token at
the poll will be 5. -/
def c2sr : SendRequest :=
  { writer_waker := 2, request := some { id := 0, buf := [8] }, rsp_id := 0 }

/-- Session state for the C4 scenario, reached from the default state by
one submission poll that enqueues a three-byte request with caller
token 7. -/
def c4s : SharedState :=
  (sendRequestPoll 7 { writer_waker := 99, request := some { id := 0, buf := [1, 2, 3] }, rsp_id := 0 }
    sharedDefault).2.2.1

/-- Fresh writer state for the C4 scenario. -/
def c4w : WState :=
  { init := true, current_offset := 0, current_request := none,
    request_timeout := 1000, shutdown_wait := none }

/-- Stream script for the C4 scenario: the first poll_write is pending. -/
def c4sc : WScript :=
  { writes := [Poll.pending], flushes := [], shutdownCalled := false }

/-- Session state for the C7 scenario: the entry under id 4 already holds a
delivered payload and its caller token has been taken. -/
def c7s : SharedState :=
  { write_waker := none, next_req_id := 0,
    req_queue := { items := [], capacity := 1024, closed := false },
    rsp_table := [(4, { data := some { id := 4, body := [0] }, waker := none, created := 0 })],
    error := none }

/-- A second response carrying the same correlation id 4 for the C7
scenario. -/
def c7r : KeylessResponse :=
  { id := 4, body := [9] }

/-- Open session state with a published writer token 8, for the C10
scenario. -/
def c10s : SharedState :=
  { write_waker := some 8, next_req_id := 0,
    req_queue := { items := [], capacity := 1024, closed := false },
    rsp_table := [], error := none }

/-- A submission future still holding its request, for the C10 scenario. -/
def c10sr : SendRequest :=
  { writer_waker := 8, request := some { id := 0, buf := [2] }, rsp_id := 0 }

theorem tableLookup_erase (t : List (Nat × ResponseValue)) (k : Nat) :
    tableLookup (tableErase t k) k = none := by
  induction t with
  | nil => rfl
  | cons p rest ih =>
    by_cases h : p.1 = k
    · simpa [tableErase, List.filter_cons, h] using ih
    · simpa [tableErase, List.filter_cons, h, tableLookup] using ih

theorem tableLookup_erase_ne (t : List (Nat × ResponseValue)) (i k : Nat) (h : i ≠ k) :
    tableLookup (tableErase t k) i = tableLookup t i := by
  induction t with
  | nil => rfl
  | cons p rest ih =>
    by_cases hp : p.1 = k
    · simp [tableErase, List.filter_cons, tableLookup, hp, Ne.symm h]
      exact ih
    · simp only [tableErase, List.filter_cons] at *
      rw [if_pos (by simpa using hp)]
      by_cases hq : p.1 = i
      · simp [tableLookup, hq]
      · simp [tableLookup, hq, ih]

theorem tableErase_of_lookup_none (t : List (Nat × ResponseValue)) (k : Nat)
    (h : tableLookup t k = none) : tableErase t k = t := by
  induction t with
  | nil => rfl
  | cons p rest ih =>
    by_cases hp : p.1 = k
    · rw [tableLookup, if_pos hp] at h
      exact absurd h (by simp)
    · rw [tableLookup, if_neg hp] at h
      simp only [tableErase, List.filter_cons]
      rw [if_pos (by simpa using hp)]
      exact congrArg (p :: ·) (ih h)

theorem tableLookup_insert_self (t : List (Nat × ResponseValue)) (k : Nat) (v : ResponseValue) :
    tableLookup (tableInsert t k v) k = some v := by
  simp [tableInsert, tableLookup]

theorem tableLookup_insert_ne (t : List (Nat × ResponseValue)) (i k : Nat) (v : ResponseValue)
    (h : i ≠ k) : tableLookup (tableInsert t k v) i = tableLookup t i := by
  simp only [tableInsert, tableLookup]
  rw [if_neg (Ne.symm h)]
  exact tableLookup_erase_ne t i k h

/-- C1 counterexample: in the awaiting-response state, a poll that finds
the pending entry present but without payload does not yield pending and
does not leave the entry in the table: on the concrete state c1s with an
empty entry under id 5, the poll resolves ready with an empty result and
the entry is gone afterwards. -/
theorem c1_counterexample :
    (sendRequestPoll 7 c1sr c1s).1 = Poll.ready none ∧
    tableLookup (sendRequestPoll 7 c1sr c1s).2.2.1.rsp_table 5 = none := by
  exact ⟨rfl, rfl⟩

/-- C1 (amended): for every awaiting-response future, a poll that finds
its pending entry present but without payload removes the entry from the
table and resolves with an empty result. -/
theorem c1_await_entry_nopayload (cx : Waker) (sr : SendRequest) (s : SharedState)
    (v : ResponseValue) (hreq : sr.request = none)
    (hent : tableLookup s.rsp_table sr.rsp_id = some v) (hdata : v.data = none) :
    (sendRequestPoll cx sr s).1 = Poll.ready none ∧
    tableLookup (sendRequestPoll cx sr s).2.2.1.rsp_table sr.rsp_id = none := by
  simp [sendRequestPoll, hreq, tableRemove, hent, hdata, tableLookup_erase]

/-- C1 witness: the amended statement applied to the concrete scenario
state c1s. -/
theorem c1_await_witness :
    (sendRequestPoll 7 c1sr c1s).1 = Poll.ready none ∧
    tableLookup (sendRequestPoll 7 c1sr c1s).2.2.1.rsp_table c1sr.rsp_id = none :=
  c1_await_entry_nopayload 7 c1sr c1s
    { data := none, waker := some 3, created := 0 } rfl rfl rfl

/-- C2 counterexample: on the concrete full queue c2s whose queued producer
token is 9, the first poll of the future with task token 5 wakes token 5,
its own, and the queue still holds the pair with token 9: the woken token
is not one taken off the queue. -/
theorem c2_counterexample :
    (sendRequestPoll 5 c2sr c2s).2.2.2 = [5] ∧
    (sendRequestPoll 5 c2sr c2s).2.2.1.req_queue.items.map (fun p => p.2) = [9] ∧
    (5 : Waker) ≠ 9 ∧
    (sendRequestPoll 5 c2sr c2s).1 = Poll.pending ∧
    (sendRequestPoll 5 c2sr c2s).2.1.request = some { id := 0, buf := [8] } := by
  refine ⟨rfl, rfl, by decide, rfl, rfl⟩

/-- C2 (amended): when the first-poll push fails because the queue is full,
the future keeps its request (stamped with the minted id), yields pending,
leaves the queue unchanged, and the token it wakes is its own task token,
which was handed back with the rejected pair. -/
theorem c2_queue_full_self_wake (cx : Waker) (sr : SendRequest) (s : SharedState)
    (req : KeylessRequest) (hreq : sr.request = some req)
    (hopen : s.req_queue.closed = false)
    (hfull : s.req_queue.capacity ≤ s.req_queue.items.length) :
    (sendRequestPoll cx sr s).1 = Poll.pending ∧
    (sendRequestPoll cx sr s).2.1.request = some (req.setId (s.next_req_id % 4294967296)) ∧
    (sendRequestPoll cx sr s).2.2.2 = [cx] ∧
    (sendRequestPoll cx sr s).2.2.1.req_queue = s.req_queue := by
  simp [sendRequestPoll, hreq, nextReqIdStep, ReqQueue.push, hopen, hfull]

/-- C2 witness: the amended statement applied to the concrete full-queue
scenario c2s. -/
theorem c2_full_witness :
    (sendRequestPoll 5 c2sr c2s).1 = Poll.pending ∧
    (sendRequestPoll 5 c2sr c2s).2.1.request
      = some (KeylessRequest.setId { id := 0, buf := [8] } (c2s.next_req_id % 4294967296)) ∧
    (sendRequestPoll 5 c2sr c2s).2.2.2 = [5] ∧
    (sendRequestPoll 5 c2sr c2s).2.2.1.req_queue = c2s.req_queue :=
  c2_queue_full_self_wake 5 c2sr c2s { id := 0, buf := [8] } rfl rfl (by decide)

/-- C3 counterexample: the error slot is not write-once-effective: after a
write-failure 7 is stored in the default state, a later store of a
response error 9 replaces it, so the first error does not stay in place. -/
theorem c3_counterexample :
    (setReqError sharedDefault 7).error = some (KeylessResponseError.writeFailed 7) ∧
    (setRspError (setReqError sharedDefault 7) (KeylessResponseError.responseFailed 9)).error
      = some (KeylessResponseError.responseFailed 9) ∧
    some (KeylessResponseError.responseFailed 9)
      ≠ some (KeylessResponseError.writeFailed 7) := by
  refine ⟨rfl, rfl, by decide⟩

/-- C3 (amended): the error slot is last-write-wins: each of the two store
operations overwrites the slot with its own error unconditionally, and
fetch_error returns a snapshot of the single error currently stored. -/
theorem c3_error_slot_last_write_wins (s : SharedState) (er : KeylessResponseError) (e : IOErr) :
    (setRspError s er).error = some er ∧
    (setReqError s e).error = some (KeylessResponseError.writeFailed e) ∧
    fetchError (setRspError s er) = some er ∧
    fetchError (setReqError s e) = some (KeylessResponseError.writeFailed e) :=
  ⟨rfl, rfl, rfl, rfl⟩

/-- C6: start_transfer resolves to a send handle only after the writer has
published its wake token: the wait future yields ready only when the slot
holds a token and the handle carries exactly that token; with the slot
still empty it self-wakes and stays pending; the init block of the writer
first poll publishes the writer task token; and every future created from
a handle carries the handle token. -/
theorem c6_handle_after_publish :
    (∀ (cx : Waker) (s : SharedState) (h : SendHandle) (wl : List Waker),
      waitWriteWakerPoll cx s = (Poll.ready h, wl) → s.write_waker = some h.writer_waker) ∧
    (∀ (cx : Waker) (s : SharedState), s.write_waker = none →
      waitWriteWakerPoll cx s = (Poll.pending, [cx])) ∧
    (∀ (cx : Waker) (s : SharedState) (w : WState), w.init = true →
      (initStep cx s w).1.write_waker = some cx ∧ (initStep cx s w).2.init = false) ∧
    (∀ (h : SendHandle) (req : KeylessRequest),
      (sendRequestNew h req).writer_waker = h.writer_waker) := by
  refine ⟨?_, ?_, ?_, ?_⟩
  · intro cx s h wl hp
    cases hw : s.write_waker with
    | some w =>
      simp only [waitWriteWakerPoll, hw] at hp
      have hh : ({ writer_waker := w } : SendHandle) = h := by
        have h1 := congrArg Prod.fst hp
        simpa using h1
      subst hh
      rfl
    | none =>
      simp [waitWriteWakerPoll, hw] at hp
  · intro cx s hw
    rw [waitWriteWakerPoll, hw]
  · intro cx s w hi
    exact ⟨by simp [initStep, hi], by simp [initStep, hi]⟩
  · intro h req
    rfl

/-- C6 witness: for the concrete state whose slot holds token 4, the first
part applied to the handle carrying token 4 gives back the publication
fact. -/
theorem c6_publish_witness :
    ({ write_waker := some 4, next_req_id := 0,
       req_queue := { items := [], capacity := 1024, closed := false },
       rsp_table := [], error := none } : SharedState).write_waker
      = some (SendHandle.mk 4).writer_waker :=
  c6_handle_after_publish.1 1
    { write_waker := some 4, next_req_id := 0,
      req_queue := { items := [], capacity := 1024, closed := false },
      rsp_table := [], error := none }
    (SendHandle.mk 4) [] rfl

/-- C7 counterexample: a pending entry can be present while its token has
already been taken (a duplicate response id after delivery): on the
concrete state c7s the entry under id 4 is present, yet the reader step
for the second response c7r stores nothing, signals nothing and leaves the
state unchanged, so presence of the entry alone does not imply the payload
is stored. -/
theorem c7_counterexample :
    tableLookup c7s.rsp_table c7r.id
      = some { data := some { id := 4, body := [0] }, waker := none, created := 0 } ∧
    readerStepOk c7s c7r = (c7s, [REvent.unlock]) ∧
    (tableLookup (readerStepOk c7s c7r).1.rsp_table c7r.id).bind (fun v => v.data)
      ≠ some c7r := by
  refine ⟨rfl, rfl, by decide⟩

/-- C7 (amended): in the reader successful-response step, when the pending
entry for the recovered id is present and still carries its caller wake
token, the payload is stored into the entry and the token taken, and the
event order is store, then lock release, then wake (store-before-wake);
when the entry is absent, or present with its token already taken, the
response is discarded silently and the state is unchanged. -/
theorem c7_store_before_wake :
    (∀ (s : SharedState) (r : KeylessResponse) (v : ResponseValue) (wk : Waker),
      tableLookup s.rsp_table r.id = some v → v.waker = some wk →
      tableLookup (readerStepOk s r).1.rsp_table r.id
          = some { v with data := some r, waker := none } ∧
      (readerStepOk s r).2 = [REvent.store r.id, REvent.unlock, REvent.wakeEv wk]) ∧
    (∀ (s : SharedState) (r : KeylessResponse),
      tableLookup s.rsp_table r.id = none → readerStepOk s r = (s, [REvent.unlock])) ∧
    (∀ (s : SharedState) (r : KeylessResponse) (v : ResponseValue),
      tableLookup s.rsp_table r.id = some v → v.waker = none →
      readerStepOk s r = (s, [REvent.unlock])) := by
  refine ⟨?_, ?_, ?_⟩
  · intro s r v wk hent hwk
    simp only [readerStepOk, hent, hwk]
    exact ⟨tableLookup_insert_self _ _ _, trivial⟩
  · intro s r hent
    simp [readerStepOk, hent]
  · intro s r v hent hwk
    simp [readerStepOk, hent, hwk]

/-- C7 witness: the present-with-token part applied to a concrete state
with an empty entry under id 4 and caller token 6. -/
theorem c7_reader_witness :
    tableLookup (readerStepOk
        { write_waker := none, next_req_id := 0,
          req_queue := { items := [], capacity := 1024, closed := false },
          rsp_table := [(4, { data := none, waker := some 6, created := 2 })],
          error := none } { id := 4, body := [1] }).1.rsp_table 4
      = some { data := some { id := 4, body := [1] }, waker := none, created := 2 } ∧
    (readerStepOk
        { write_waker := none, next_req_id := 0,
          req_queue := { items := [], capacity := 1024, closed := false },
          rsp_table := [(4, { data := none, waker := some 6, created := 2 })],
          error := none } { id := 4, body := [1] }).2
      = [REvent.store 4, REvent.unlock, REvent.wakeEv 6] :=
  c7_store_before_wake.1
    { write_waker := none, next_req_id := 0,
      req_queue := { items := [], capacity := 1024, closed := false },
      rsp_table := [(4, { data := none, waker := some 6, created := 2 })],
      error := none } { id := 4, body := [1] }
    { data := none, waker := some 6, created := 2 } 6 rfl rfl

/-- C8: when the writer finds the request queue closed (closed flag set and
no items left) while holding no current request, it clears the writer wake
token and arms, or keeps, a timer whose deadline is the poll time plus
request_timeout; while the deadline is in the future it yields pending
with the timer preserved and no shutdown issued, and once the deadline is
reached it issues shutdown on the write half and resolves. -/
theorem c8_closed_shutdown_timer (fuel : Nat) (cx : Waker) (now : Nat) (s : SharedState)
    (w : WState) (sc : WScript) (hinit : w.init = false)
    (hcur : w.current_request = none) (hitems : s.req_queue.items = [])
    (hclosed : s.req_queue.closed = true) :
    pollWrite (fuel + 1) cx now s w sc =
      some (if w.shutdown_wait.getD (now + w.request_timeout) ≤ now
        then (Poll.ready (), { s with write_waker := none },
              { w with shutdown_wait := none }, sc.doShutdown, [])
        else (Poll.pending, { s with write_waker := none },
              { w with shutdown_wait := some (w.shutdown_wait.getD (now + w.request_timeout)) },
              sc, [])) := by
  have hI : initStep cx s w = (s, w) := by simp [initStep, hinit]
  simp only [pollWrite, hI]
  simp only [pollWriteLoop, hcur, ReqQueue.pop, hitems, hclosed]
  by_cases hd : w.shutdown_wait.getD (now + w.request_timeout) ≤ now
  · simp [hd]
  · simp [hd]

/-- C8 witness: the theorem applied to a concrete closed empty queue with
timeout 5 at poll time 0: the deadline 5 is in the future, so the poll
yields pending with the armed timer kept and no shutdown. -/
theorem c8_timer_witness :
    pollWrite 1 4 0
      { write_waker := some 4, next_req_id := 0,
        req_queue := { items := [], capacity := 1024, closed := true },
        rsp_table := [], error := none }
      { init := false, current_offset := 0, current_request := none,
        request_timeout := 5, shutdown_wait := none }
      { writes := [], flushes := [], shutdownCalled := false } =
    some (Poll.pending,
      { write_waker := none, next_req_id := 0,
        req_queue := { items := [], capacity := 1024, closed := true },
        rsp_table := [], error := none },
      { init := false, current_offset := 0, current_request := none,
        request_timeout := 5, shutdown_wait := some 5 },
      { writes := [], flushes := [], shutdownCalled := false }, []) :=
  c8_closed_shutdown_timer 0 4 0
    { write_waker := some 4, next_req_id := 0,
      req_queue := { items := [], capacity := 1024, closed := true },
      rsp_table := [], error := none }
    { init := false, current_offset := 0, current_request := none,
      request_timeout := 5, shutdown_wait := none }
    { writes := [], flushes := [], shutdownCalled := false } rfl rfl rfl rfl

/-- C9: one janitor tick retains exactly the entries whose age is at most
request_timeout and evicts exactly those strictly older, waking exactly
the caller tokens attached to evicted entries; and the janitor tick times
are spaced by a fixed interval equal to request_timeout. -/
theorem c9_janitor_evicts_aged (now timeout : Nat) (t : List (Nat × ResponseValue)) :
    (∀ p : Nat × ResponseValue,
      p ∈ (janitorTick now timeout t).1 ↔ p ∈ t ∧ now - p.2.created ≤ timeout) ∧
    (∀ wk : Waker, wk ∈ (janitorTick now timeout t).2 ↔
      ∃ p : Nat × ResponseValue, p ∈ t ∧ timeout < now - p.2.created ∧ p.2.waker = some wk) ∧
    (∀ k, janitorTickTime timeout (k + 1) = janitorTickTime timeout k + timeout) := by
  refine ⟨?_, ?_, ?_⟩
  · intro p
    simp [janitorTick, List.mem_filter, Nat.not_lt]
  · intro wk
    simp only [janitorTick, List.mem_filterMap, List.mem_filter]
    constructor
    · rintro ⟨p, ⟨hp, hage⟩, hwk⟩
      exact ⟨p, hp, by simpa using hage, hwk⟩
    · rintro ⟨p, hp, hage, hwk⟩
      exact ⟨p, ⟨hp, by simpa using hage⟩, hwk⟩
  · intro k
    simp [janitorTickTime, Nat.mul_add, Nat.mul_succ]

/-- C9 witness: the eviction characterization applied to a concrete table
at tick time 10 with timeout 3: the fresh entry is retained, the stale
token 5 is woken. -/
theorem c9_janitor_witness :
    (2, ({ data := none, waker := some 6, created := 8 } : ResponseValue)) ∈
      (janitorTick 10 3 [(1, { data := none, waker := some 5, created := 0 }),
        (2, { data := none, waker := some 6, created := 8 })]).1 ∧
    (5 : Waker) ∈
      (janitorTick 10 3 [(1, { data := none, waker := some 5, created := 0 }),
        (2, { data := none, waker := some 6, created := 8 })]).2 :=
  ⟨((c9_janitor_evicts_aged 10 3 [(1, { data := none, waker := some 5, created := 0 }),
        (2, { data := none, waker := some 6, created := 8 })]).1 _).mpr (by decide),
   ((c9_janitor_evicts_aged 10 3 [(1, { data := none, waker := some 5, created := 0 }),
        (2, { data := none, waker := some 6, created := 8 })]).2.1 5).mpr
      ⟨(1, { data := none, waker := some 5, created := 0 }), by decide, by decide, rfl⟩⟩

/-- C10: dropping a send handle closes the request queue at once: after
the drop is_closed reports true, the published writer wake token (when
present) is the one and only token signalled, and a submission future
whose request is still pending push resolves to an empty result on its
next poll against the dropped-state queue. -/
theorem c10_drop_closes (s : SharedState) :
    isClosed (dropSendHandle s).1 = true ∧
    (∀ w, s.write_waker = some w → (dropSendHandle s).2 = [w]) ∧
    (s.write_waker = none → (dropSendHandle s).2 = []) ∧
    (∀ (cx : Waker) (sr : SendRequest) (req : KeylessRequest), sr.request = some req →
      (sendRequestPoll cx sr (dropSendHandle s).1).1 = Poll.ready none) := by
  refine ⟨?_, ?_, ?_, ?_⟩
  · cases hw : s.write_waker <;>
      simp [dropSendHandle, takeWriteWaker, hw, isClosed, ReqQueue.close]
  · intro w hw
    simp [dropSendHandle, takeWriteWaker, hw]
  · intro hw
    simp [dropSendHandle, takeWriteWaker, hw]
  · intro cx sr req hreq
    cases hw : s.write_waker <;>
      simp [dropSendHandle, takeWriteWaker, hw, sendRequestPoll, hreq, nextReqIdStep,
        ReqQueue.push, ReqQueue.close]

/-- C10 witness: the drop applied to a concrete open state with published
writer token 8 and a pending submission future. -/
theorem c10_drop_witness :
    isClosed (dropSendHandle c10s).1 = true ∧
    (sendRequestPoll 3 c10sr (dropSendHandle c10s).1).1 = Poll.ready none :=
  ⟨(c10_drop_closes c10s).1,
   (c10_drop_closes c10s).2.2.2 3 c10sr { id := 0, buf := [2] } rfl⟩

/-- C4 counterexample: a reachable writer state holds a request that is in
neither collection: starting from the default state, one submission poll
enqueues the request with caller token 7, and one writer poll whose first
underlying write is pending leaves that request in the writer
current-request slot while the queue is empty and its id 0 is not a key of
the pending-response table. -/
theorem c4_counterexample :
    (pollWrite 3 55 0 c4s c4w c4sc).map
        (fun o => (o.2.2.1.current_request, o.2.1.req_queue.items, tableLookup o.2.1.rsp_table 0))
      = some (some ({ id := 0, buf := [1, 2, 3] }, 7), [], none) := by
  rfl

/-- C4 (amended): between submission and completion a request is held in
one of three places, not two: the request queue, the writer
current-request slot, or the pending-response table.  One writer poll
never drops a caller: every caller wake token held in those three places
before the poll is, afterwards, either still held in one of them or among
the tokens the poll woke. -/
theorem c4_waker_conservation :
    ∀ (fuel now : Nat) (s : SharedState) (w : WState) (sc : WScript) (df : Bool)
      (acc : List Waker) (res : Poll Unit) (s1 : SharedState) (w1 : WState)
      (sc1 : WScript) (woken : List Waker) (wk : Waker),
      WriterInv s w →
      pollWriteLoop fuel now s w sc df acc = some (res, s1, w1, sc1, woken) →
      wk ∈ heldWakers s w →
      wk ∈ heldWakers s1 w1 ∨ wk ∈ woken := by
  intro fuel
  induction fuel with
  | zero =>
    intro now s w sc df acc res s1 w1 sc1 woken wk hinv heq hmem
    simp [pollWriteLoop] at heq
  | succ n ih =>
    intro now s w sc df acc res s1 w1 sc1 woken wk hinv heq hmem
    simp only [pollWriteLoop] at heq
    split at heq
    next req waker hc =>
      split at heq
      next hwl =>
        simp at heq
      next e sc2 hwl =>
        simp only [Option.some.injEq, Prod.mk.injEq] at heq
        obtain ⟨-, hs1, hw1, -, hwoken⟩ := heq
        right
        subst hwoken
        simp only [heldWakers, hc] at hmem
        simp only [writerFail, cleanPendingReq]
        simp at hmem ⊢
        tauto
      next off dw sc2 hwl =>
        simp only [Option.some.injEq, Prod.mk.injEq] at heq
        obtain ⟨-, hs1, hw1, -, hwoken⟩ := heq
        left
        subst hs1
        subst hw1
        subst hwoken
        simp only [heldWakers, hc] at hmem ⊢
        simpa using hmem
      next off dw sc2 hwl =>
        refine ih now _ _ sc2 dw acc res s1 w1 sc1 woken wk ⟨?_, ?_⟩ heq ?_
        · have hnd := hinv.1
          simp only [pendingIds, hc] at hnd
          simp only [pendingIds]
          simp only [Option.map_some', Option.toList_some, List.cons_append,
            List.nil_append] at hnd
          simp only [Option.map_none', Option.toList_none, List.nil_append]
          exact (List.nodup_cons.mp hnd).2
        · intro i hi
          have hnd := hinv.1
          simp only [pendingIds, hc, Option.map_some', Option.toList_some,
            List.cons_append, List.nil_append] at hnd
          simp only [pendingIds, Option.map_none', Option.toList_none,
            List.nil_append] at hi
          have hne : i ≠ req.id := by
            intro he
            exact (List.nodup_cons.mp hnd).1 (he ▸ hi)
          show tableLookup (tableInsert s.rsp_table req.id
            { data := none, waker := some waker, created := now }) i = none
          rw [tableLookup_insert_ne _ _ _ _ hne]
          exact hinv.2 i (by simp [pendingIds, hc, hi])
        · have hE : tableErase s.rsp_table req.id = s.rsp_table :=
            tableErase_of_lookup_none _ _ (hinv.2 req.id (by simp [pendingIds, hc]))
          simp only [heldWakers, hc] at hmem
          simp only [heldWakers, tableInsert, hE]
          simp at hmem ⊢
          tauto
    next hc =>
      split at heq
      next x q1 hpop =>
        rw [ReqQueue.pop] at hpop
        split at hpop
        next hitems =>
          split at hpop <;> simp at hpop
        next y rest hitems =>
          simp only [PopResult.ok.injEq] at hpop
          obtain ⟨hx, hq1⟩ := hpop
          subst hx
          subst hq1
          refine ih now _ _ sc df acc res s1 w1 sc1 woken wk ⟨?_, ?_⟩ heq ?_
          · have hnd := hinv.1
            simp only [pendingIds, hc, hitems, Option.map_none', Option.toList_none,
              List.nil_append, List.map_cons] at hnd
            simp only [pendingIds, Option.map_some', Option.toList_some]
            simpa using hnd
          · intro i hi
            refine hinv.2 i ?_
            simp only [pendingIds, Option.map_some', Option.toList_some] at hi
            simp only [pendingIds, hc, hitems, Option.map_none', Option.toList_none,
              List.nil_append, List.map_cons]
            simpa using hi
          · simp only [heldWakers, hc, hitems] at hmem
            simp only [heldWakers]
            simp at hmem ⊢
            tauto
      next hpop =>
        split at heq
        · split at heq
          next sc2 hfl =>
            simp only [Option.some.injEq, Prod.mk.injEq] at heq
            obtain ⟨-, hs1, hw1, -, hwoken⟩ := heq
            subst hs1; subst hw1
            exact Or.inl hmem
          next sc2 hfl =>
            simp only [Option.some.injEq, Prod.mk.injEq] at heq
            obtain ⟨-, hs1, hw1, -, hwoken⟩ := heq
            subst hs1; subst hw1
            exact Or.inl hmem
          next e sc2 hfl =>
            simp only [Option.some.injEq, Prod.mk.injEq] at heq
            obtain ⟨-, hs1, hw1, -, hwoken⟩ := heq
            right
            subst hwoken
            simp only [heldWakers, hc] at hmem
            simp only [writerFail, cleanPendingReq]
            simp at hmem ⊢
            tauto
        · simp only [Option.some.injEq, Prod.mk.injEq] at heq
          obtain ⟨-, hs1, hw1, -, hwoken⟩ := heq
          subst hs1; subst hw1
          exact Or.inl hmem
      next hpop =>
        split at heq <;>
        · simp only [Option.some.injEq, Prod.mk.injEq] at heq
          obtain ⟨-, hs1, hw1, -, hwoken⟩ := heq
          left
          subst hs1
          subst hw1
          simp only [heldWakers, hc] at hmem ⊢
          simpa using hmem

/-- C4 witness: the conservation statement applied to the concrete run of
the C4 scenario: token 7, held in the queue before the writer poll, is
still held (in the writer current-request slot) afterwards. -/
theorem c4_conservation_witness :
    (7 : Waker) ∈ heldWakers
        { write_waker := some 55, next_req_id := 1,
          req_queue := { items := [], capacity := 1024, closed := false },
          rsp_table := [], error := none }
        { init := false, current_offset := 0,
          current_request := some ({ id := 0, buf := [1, 2, 3] }, 7),
          request_timeout := 1000, shutdown_wait := none } ∨
    (7 : Waker) ∈ ([] : List Waker) := by
  exact c4_waker_conservation 3 0 (initStep 55 c4s c4w).1 (initStep 55 c4s c4w).2 c4sc
    false [] Poll.pending
    { write_waker := some 55, next_req_id := 1,
      req_queue := { items := [], capacity := 1024, closed := false },
      rsp_table := [], error := none }
    { init := false, current_offset := 0,
      current_request := some ({ id := 0, buf := [1, 2, 3] }, 7),
      request_timeout := 1000, shutdown_wait := none }
    { writes := [], flushes := [], shutdownCalled := false } [] 7
    (by constructor <;> decide) (by decide) (by decide)

/-- C5: on any write or flush I/O error, one writer poll closes the
request queue, drains it and the pending-response table, wakes every
caller token that was held (the current caller among them on a write
error), publishes the error wrapped as a write-failure, attempts shutdown
of the write half and resolves; afterwards a submission future still
holding its request resolves to an empty result, an awaiting future
resolves to an empty result, and fetch_error returns the write-failure. -/
theorem c5_writer_error_fatal (fuel now : Nat) (s : SharedState) (w : WState) (sc : WScript)
    (df : Bool) (acc : List Waker) (e : IOErr)
    (h : (∃ req waker sc2, w.current_request = some (req, waker) ∧
            writeLoop fuel req.buf w.current_offset df sc = some (WOut.failed e, sc2)) ∨
         (w.current_request = none ∧ s.req_queue.items = [] ∧ s.req_queue.closed = false ∧
            df = true ∧ ∃ sc2, sc.nextFlush = (Poll.ready (FRes.err e), sc2))) :
    ∃ s1 w1 sc1 woken,
      pollWriteLoop (fuel + 1) now s w sc df acc = some (Poll.ready (), s1, w1, sc1, woken) ∧
      s1.req_queue.closed = true ∧ s1.req_queue.items = [] ∧ s1.rsp_table = [] ∧
      s1.error = some (KeylessResponseError.writeFailed e) ∧
      sc1.shutdownCalled = true ∧
      (∀ wk ∈ heldWakers s w, wk ∈ woken) ∧
      (∀ (cx : Waker) (sr : SendRequest) (req2 : KeylessRequest), sr.request = some req2 →
        (sendRequestPoll cx sr s1).1 = Poll.ready none) ∧
      (∀ (cx : Waker) (sr : SendRequest), sr.request = none →
        (sendRequestPoll cx sr s1).1 = Poll.ready none) ∧
      fetchError s1 = some (KeylessResponseError.writeFailed e) := by
  rcases h with ⟨req, waker, sc2, hc, hwl⟩ | ⟨hc, hitems, hopen, hdf, sc2, hfl⟩
  · refine ⟨(writerFail s e).1, { w with current_request := none }, sc2.doShutdown,
      acc ++ [waker] ++ (writerFail s e).2, ?_, ?_, ?_, ?_, ?_, ?_, ?_, ?_, ?_, ?_⟩
    · simp only [pollWriteLoop, hc, hwl]
    · simp [writerFail, cleanPendingReq, setReqError, ReqQueue.close]
    · simp [writerFail, cleanPendingReq, setReqError]
    · simp [writerFail, cleanPendingReq, setReqError]
    · simp [writerFail, cleanPendingReq, setReqError]
    · simp [WScript.doShutdown]
    · intro wk hwk
      simp only [heldWakers, hc] at hwk
      simp only [writerFail, cleanPendingReq]
      simp at hwk ⊢
      tauto
    · intro cx sr req2 hreq
      simp [sendRequestPoll, hreq, nextReqIdStep, ReqQueue.push, writerFail,
        cleanPendingReq, setReqError, ReqQueue.close]
    · intro cx sr hreq
      simp [sendRequestPoll, hreq, tableRemove, writerFail, cleanPendingReq,
        setReqError, tableLookup]
    · simp [fetchError, writerFail, cleanPendingReq, setReqError]
  · subst hdf
    refine ⟨(writerFail s e).1, w, sc2.doShutdown, acc ++ (writerFail s e).2,
      ?_, ?_, ?_, ?_, ?_, ?_, ?_, ?_, ?_, ?_⟩
    · simp only [pollWriteLoop, hc, ReqQueue.pop, hitems, hopen, hfl]
      simp
    · simp [writerFail, cleanPendingReq, setReqError, ReqQueue.close]
    · simp [writerFail, cleanPendingReq, setReqError]
    · simp [writerFail, cleanPendingReq, setReqError]
    · simp [writerFail, cleanPendingReq, setReqError]
    · simp [WScript.doShutdown]
    · intro wk hwk
      simp only [heldWakers, hc, hitems] at hwk
      simp only [writerFail, cleanPendingReq]
      simp at hwk ⊢
      tauto
    · intro cx sr req2 hreq
      simp [sendRequestPoll, hreq, nextReqIdStep, ReqQueue.push, writerFail,
        cleanPendingReq, setReqError, ReqQueue.close]
    · intro cx sr hreq
      simp [sendRequestPoll, hreq, tableRemove, writerFail, cleanPendingReq,
        setReqError, tableLookup]
    · simp [fetchError, writerFail, cleanPendingReq, setReqError]

/-- C5 witness: the failure theorem applied to a concrete write error 7
while writing the current request of caller 10, with caller 11 queued and
caller 12 awaiting. -/
theorem c5_fatal_witness :
    ∃ s1 w1 sc1 woken,
      pollWriteLoop 2 0
          { write_waker := some 50, next_req_id := 2,
            req_queue := { items := [({ id := 1, buf := [2] }, 11)], capacity := 1024, closed := false },
            rsp_table := [(5, { data := none, waker := some 12, created := 0 })],
            error := none }
          { init := false, current_offset := 0,
            current_request := some ({ id := 0, buf := [1] }, 10),
            request_timeout := 9, shutdown_wait := none }
          { writes := [Poll.ready (WRes.err 7)], flushes := [], shutdownCalled := false }
          false [] = some (Poll.ready (), s1, w1, sc1, woken) ∧
      s1.req_queue.closed = true ∧ s1.req_queue.items = [] ∧ s1.rsp_table = [] ∧
      s1.error = some (KeylessResponseError.writeFailed 7) ∧
      sc1.shutdownCalled = true ∧
      (∀ wk ∈ heldWakers
          { write_waker := some 50, next_req_id := 2,
            req_queue := { items := [({ id := 1, buf := [2] }, 11)], capacity := 1024, closed := false },
            rsp_table := [(5, { data := none, waker := some 12, created := 0 })],
            error := none }
          { init := false, current_offset := 0,
            current_request := some ({ id := 0, buf := [1] }, 10),
            request_timeout := 9, shutdown_wait := none }, wk ∈ woken) ∧
      (∀ (cx : Waker) (sr : SendRequest) (req2 : KeylessRequest), sr.request = some req2 →
        (sendRequestPoll cx sr s1).1 = Poll.ready none) ∧
      (∀ (cx : Waker) (sr : SendRequest), sr.request = none →
        (sendRequestPoll cx sr s1).1 = Poll.ready none) ∧
      fetchError s1 = some (KeylessResponseError.writeFailed 7) := by
  exact c5_writer_error_fatal 1 0
    { write_waker := some 50, next_req_id := 2,
      req_queue := { items := [({ id := 1, buf := [2] }, 11)], capacity := 1024, closed := false },
      rsp_table := [(5, { data := none, waker := some 12, created := 0 })],
      error := none }
    { init := false, current_offset := 0,
      current_request := some ({ id := 0, buf := [1] }, 10),
      request_timeout := 9, shutdown_wait := none }
    { writes := [Poll.ready (WRes.err 7)], flushes := [], shutdownCalled := false }
    false [] 7
    (Or.inl ⟨{ id := 0, buf := [1] }, 10,
      { writes := [], flushes := [], shutdownCalled := false }, rfl, rfl⟩)
